import Mathlib

/-!
Verification development for the CasperAi streaming chat relay.

Shallow embedding of:
  * the in-memory `MemStorage` repository (`server/storage.ts`, shown in
    `src/use-websocket.ts` part 2): conversations, messages, uploaded files,
    `createMessage`, `updateConversation`, `getMessagesByConversation`,
    `deleteConversation`;
  * the provider clients `generateStreamingCompletion` from `src/openai.ts`
    and `src/anthropic.ts` (the processing of the provider event stream;
    the network call itself is the external oracle);
  * the WebSocket `message` handler registered in `registerRoutes`
    (`src/public_ai-visual.js` part 2, lines 188-256), which is the
    streaming relay: parse the frame, persist the user message, load
    history, pick a provider by `model.includes("gpt")`, emit
    `streaming_start`, relay chunks, persist the assistant message, emit
    `streaming_complete`, with a single catch-all emitting `error`.

Modelling conventions:
  * JavaScript dynamic values are modelled by `JsonPrim` and `Json`.
    The model is restricted to depth-1 JSON documents (objects and arrays
    hold primitives only); the relay never reads a nested value, so every
    modelled behaviour is unaffected.  `Option JsonPrim` models
    "a primitive value or `undefined`" (`none` = `undefined`).
  * `===` on the modelled values is structural equality (`==`); reference
    equality of distinct objects never arises in the modelled flows, whose
    identifiers are primitives.
  * `new Date()` / message timestamps are modelled by a logical `clock`
    that strictly increases at each date-taking store write of a turn;
    the single-threaded handler makes this a faithful abstraction (real
    timestamps are non-decreasing and `Array.prototype.sort` is stable).
  * `randomUUID()` for message and file ids is modelled by the fresh
    counter `nextId` (only uniqueness of ids is ever relied upon).
  * The WebSocket transport is modelled by `wsOpen : Nat → Bool`:
    the handler checks `ws.readyState === WebSocket.OPEN` immediately
    before each send; `wsOpen k` is the result of the k-th such check of
    the turn.  Frames are appended to the wire only when the check passes.
-/

/-- A primitive JSON value (`null`, boolean, number, string). -/
inductive JsonPrim where
  | null
  | bool (b : Bool)
  | num (n : Int)
  | str (s : String)
deriving DecidableEq

/-- A parsed JSON document, restricted to depth 1 (see header). -/
inductive Json where
  | prim (p : JsonPrim)
  | arr (elems : List JsonPrim)
  | obj (fields : List (String × JsonPrim))
deriving DecidableEq

/-- Property lookup on a non-`null` JS value: objects yield the field value
(or `undefined`), every other value has no own properties (the handler only
reads `type`, `conversationId`, `content`, `model`, `mode`, none of which
is a built-in). `none` models `undefined`. -/
def jsField (v : Json) (f : String) : Option JsonPrim :=
  match v with
  | Json.obj fields => (fields.find? (fun p => p.1 == f)).map Prod.snd
  | _ => none

/-- `message.type`: reading a property of `null` throws a `TypeError`;
on any other parsed value it is plain property lookup. -/
def Json.typeField : Json → Except String (Option JsonPrim)
  | Json.prim JsonPrim.null =>
      Except.error "Cannot read properties of null (reading type)"
  | v => Except.ok (jsField v "type")

/-- JS truthiness of a primitive (`JSON` has no `NaN`). -/
def jsTruthy : JsonPrim → Bool
  | JsonPrim.null => false
  | JsonPrim.bool b => b
  | JsonPrim.num n => n != 0
  | JsonPrim.str s => s != ""

/-- `v || null` as used by `createMessage` for the `model` and `tokenUsage`
fields: a truthy value is kept, anything else (including `undefined`)
becomes `null`. -/
def jsOrNull : Option JsonPrim → JsonPrim
  | some v => if jsTruthy v then v else JsonPrim.null
  | none => JsonPrim.null

/-- Whether `needle` occurs at the head of `hay`. -/
def charsStartWith : List Char → List Char → Bool
  | [], _ => true
  | _ :: _, [] => false
  | a :: as, b :: bs => a == b && charsStartWith as bs

/-- Whether `needle` occurs contiguously anywhere in `hay`. -/
def charsContain (needle : List Char) : List Char → Bool
  | [] => charsStartWith needle []
  | hay@(_ :: rest) => charsStartWith needle hay || charsContain needle rest

/-- `model.includes("gpt")` from the handler: a string receiver does a
substring test; `undefined`/`null` receivers throw a `TypeError` on the
property read; a boolean or number receiver has no `includes` method and
throws a `TypeError` on the call. (Array receivers cannot occur in the
depth-1 model: object fields are primitives.) -/
def jsIncludesGpt : Option JsonPrim → Except String Bool
  | none => Except.error "Cannot read properties of undefined (reading includes)"
  | some JsonPrim.null => Except.error "Cannot read properties of null (reading includes)"
  | some (JsonPrim.str s) => Except.ok (charsContain "gpt".data s.data)
  | some (JsonPrim.bool _) => Except.error "model.includes is not a function"
  | some (JsonPrim.num _) => Except.error "model.includes is not a function"

/-- A stored conversation (`MemStorage.conversations` entry). -/
structure Conversation where
  id : String
  title : String
  model : String
  mode : String
  createdAt : Nat
  updatedAt : Nat
deriving DecidableEq

/-- A stored message (`MemStorage.messages` entry).  `conversationId` and
`content` are stored exactly as supplied (possibly `undefined`); `model`
and `tokenUsage` go through `v || null`. -/
structure Message where
  id : Nat
  conversationId : Option JsonPrim
  role : String
  content : Option JsonPrim
  model : JsonPrim
  tokenUsage : JsonPrim
  createdAt : Nat
deriving DecidableEq

/-- A stored uploaded file; metadata fields not read by the modelled
operations (name, mime type, size, path) are omitted.  `conversationId`
is a string or `null` (`insertFile.conversationId || null`). -/
structure UploadedFile where
  id : Nat
  conversationId : JsonPrim
  createdAt : Nat
deriving DecidableEq

/-- The argument of `createMessage` (an `InsertMessage`); fields absent at
the call site are `none` (`undefined`). -/
structure InsertMessage where
  conversationId : Option JsonPrim
  role : String
  content : Option JsonPrim
  model : Option JsonPrim
  tokenUsage : Option JsonPrim

/-- The `MemStorage` state.  The three lists are in `Map` insertion order;
`nextId` and `clock` model `randomUUID()` and `new Date()` (see header). -/
structure MemStorage where
  conversations : List Conversation
  messages : List Message
  uploadedFiles : List UploadedFile
  nextId : Nat
  clock : Nat
deriving DecidableEq

/-- `MemStorage.updateConversation(id, updates)`: missing conversation
silently yields `undefined`; otherwise the entry is replaced in place with
a fresh `updatedAt`.  The relay only ever calls it with an empty `updates`
object (from `createMessage`), which this models; the lookup key is the
raw value passed by the caller and only matches a string equal to the
conversation id. -/
def MemStorage.updateConversation (s : MemStorage) (id : Option JsonPrim) :
    Option Conversation × MemStorage :=
  match s.conversations.find? (fun c => some (JsonPrim.str c.id) == id) with
  | none => (none, s)
  | some c =>
      let updated : Conversation := { c with updatedAt := s.clock }
      (some updated,
       { s with
          conversations :=
            s.conversations.map (fun x => if x.id == c.id then updated else x),
          clock := s.clock + 1 })

/-- `MemStorage.createMessage`: build the message with a fresh id and the
current date, append it (a `Map.set` with a fresh key appends), then bump
the owning conversation via `updateConversation(conversationId, {})`.
There is no check that the conversation exists. -/
def MemStorage.createMessage (s : MemStorage) (im : InsertMessage) :
    Message × MemStorage :=
  let msg : Message :=
    { id := s.nextId
      conversationId := im.conversationId
      role := im.role
      content := im.content
      model := jsOrNull im.model
      tokenUsage := jsOrNull im.tokenUsage
      createdAt := s.clock }
  let s1 : MemStorage :=
    { s with
        messages := s.messages ++ [msg]
        nextId := s.nextId + 1
        clock := s.clock + 1 }
  (msg, (s1.updateConversation im.conversationId).2)

/-- One step of the stable ascending insertion used to model
`sort((a, b) => a.createdAt - b.createdAt)`: the element goes before the
first strictly later element, hence after every equal one. -/
def insertByTime (m : Message) : List Message → List Message
  | [] => [m]
  | x :: xs =>
      if m.createdAt < x.createdAt then m :: x :: xs else x :: insertByTime m xs

/-- Stable sort of messages by ascending `createdAt` (JS `Array.sort` with
a numeric comparator is stable). -/
def sortByCreatedAt (ms : List Message) : List Message :=
  ms.foldl (fun acc m => insertByTime m acc) []

/-- `MemStorage.getMessagesByConversation`: filter by strict equality on
the owning conversation id, then sort ascending by creation time.  The
lookup key is the raw caller-supplied value. -/
def MemStorage.getMessagesByConversation (s : MemStorage) (cid : Option JsonPrim) :
    List Message :=
  sortByCreatedAt (s.messages.filter (fun m => m.conversationId == cid))

/-- `MemStorage.getUploadedFiles(conversationId)` in the branch with a
conversation id supplied (the only branch the modelled flows use). -/
def MemStorage.getUploadedFilesFor (s : MemStorage) (cid : String) :
    List UploadedFile :=
  s.uploadedFiles.filter (fun f => f.conversationId == JsonPrim.str cid)

/-- `MemStorage.deleteConversation`: delete (by id) every message returned
by `getMessagesByConversation(id)` and every file returned by
`getUploadedFiles(id)`, then delete the conversation entry, returning
whether it existed. -/
def MemStorage.deleteConversation (s : MemStorage) (id : String) :
    Bool × MemStorage :=
  let msgIds := (s.getMessagesByConversation (some (JsonPrim.str id))).map (fun m => m.id)
  let fileIds := (s.getUploadedFilesFor id).map (fun f => f.id)
  (s.conversations.any (fun c => c.id == id),
   { s with
      conversations := s.conversations.filter (fun c => !(c.id == id))
      messages := s.messages.filter (fun m => !(msgIds.contains m.id))
      uploadedFiles := s.uploadedFiles.filter (fun f => !(fileIds.contains f.id)) })

/-- An outbound protocol frame, as serialised by the handler.  A
`streaming_complete` whose `tokenUsage` is `none` models the JSON object
without a `tokenUsage` key (`JSON.stringify` drops `undefined`). -/
inductive Frame where
  | streamingStart
  | streamingChunk (content : String)
  | streamingComplete (content : String) (tokenUsage : Option Nat)
  | error (message : String)
deriving DecidableEq

/-- The resolved value of a provider `generateStreamingCompletion` call:
`{ content, tokenUsage? }` (`none` models an absent key). -/
structure CompletionResult where
  content : String
  tokenUsage : Option Nat
deriving DecidableEq

/-- One event of an OpenAI streaming response, as far as the client code
looks at it: `chunk.choices[0]?.delta?.content` (`none` when there is no
choice or no delta content, e.g. the final usage-bearing chunk) and the
`usage.total_tokens` the API may attach (never read by the code). -/
structure OpenAIChunk where
  deltaContent : Option String
  usageTotalTokens : Option Nat
deriving DecidableEq

/-- The behaviour of one OpenAI streaming call: the stream either iterates
to completion over its events, or throws after a prefix of them
(`errorMessage` is `error.message` when the thrown value is an `Error`). -/
inductive OpenAIStreamOutcome where
  | completes (events : List OpenAIChunk)
  | throwsAfter (events : List OpenAIChunk) (errorMessage : Option String)
deriving DecidableEq

/-- The text fragments `openai.generateStreamingCompletion` hands to
`onChunk`: `chunk.choices[0]?.delta?.content || ""` followed by the
`if (content)` truthiness guard, so exactly the non-empty delta strings. -/
def openaiFragments (events : List OpenAIChunk) : List String :=
  events.filterMap (fun c =>
    match c.deltaContent with
    | some s => if s == "" then none else some s
    | none => none)

/-- `openai.generateStreamingCompletion` from `src/openai.ts`: relays each
non-empty delta to `onChunk` while accumulating `fullContent`, and
resolves with `{ content: fullContent }` — the return object has no
`tokenUsage` key.  On a provider throw the fragments already processed
stand, and the error is re-thrown wrapped as an `Error` with prefixed
message.  Returns (fragments handed to `onChunk` in order, final result). -/
def openaiGenerateStreamingCompletion :
    OpenAIStreamOutcome → List String × Except String CompletionResult
  | OpenAIStreamOutcome.completes evs =>
      (openaiFragments evs,
       Except.ok { content := String.join (openaiFragments evs), tokenUsage := none })
  | OpenAIStreamOutcome.throwsAfter evs m =>
      (openaiFragments evs,
       Except.error ("OpenAI API error: " ++ m.getD "Unknown error"))

/-- One event of an Anthropic streaming response, as far as the client
code looks at it: a `content_block_delta` with `delta.type ==
"text_delta"` carrying `delta.text`, or any other event (ignored; this
includes the usage-bearing `message_delta` events). -/
inductive AnthropicEvent where
  | textDelta (text : String)
  | other
deriving DecidableEq

/-- The behaviour of one Anthropic streaming call (see
`OpenAIStreamOutcome`). -/
inductive AnthropicStreamOutcome where
  | completes (events : List AnthropicEvent)
  | throwsAfter (events : List AnthropicEvent) (errorMessage : Option String)
deriving DecidableEq

/-- The text fragments `anthropic.generateStreamingCompletion` hands to
`onChunk`: the `delta.text` of every text-delta event (no truthiness
guard here — an empty text delta is relayed). -/
def anthropicFragments (events : List AnthropicEvent) : List String :=
  events.filterMap (fun e =>
    match e with
    | AnthropicEvent.textDelta s => some s
    | AnthropicEvent.other => none)

/-- `anthropic.generateStreamingCompletion` from `src/anthropic.ts`: same
shape as the OpenAI one (the history pre-filtering and request options it
performs configure the external call and are not observable here); the
resolved object again has no `tokenUsage` key. -/
def anthropicGenerateStreamingCompletion :
    AnthropicStreamOutcome → List String × Except String CompletionResult
  | AnthropicStreamOutcome.completes evs =>
      (anthropicFragments evs,
       Except.ok { content := String.join (anthropicFragments evs), tokenUsage := none })
  | AnthropicStreamOutcome.throwsAfter evs m =>
      (anthropicFragments evs,
       Except.error ("Anthropic API error: " ++ m.getD "Unknown error"))

/-- The external world of one turn: what each provider would do if
invoked (the handler consults exactly one of them). -/
structure ChatWorld where
  openaiOutcome : OpenAIStreamOutcome
  anthropicOutcome : AnthropicStreamOutcome

/-- `const aiService = isOpenAI ? openaiService : anthropicService`
followed by the `generateStreamingCompletion` call. -/
def backendRun (world : ChatWorld) (isOpenAI : Bool) :
    List String × Except String CompletionResult :=
  if isOpenAI then openaiGenerateStreamingCompletion world.openaiOutcome
  else anthropicGenerateStreamingCompletion world.anthropicOutcome

/-- `if (ws.readyState === WebSocket.OPEN) ws.send(frame)`: attempt `k`
appends the frame to the wire exactly when the k-th readiness check
passes; the attempt counter advances either way. -/
def sendIfOpen (wsOpen : Nat → Bool) (k : Nat) (fs : List Frame) (f : Frame) :
    Nat × List Frame :=
  (k + 1, if wsOpen k then fs ++ [f] else fs)

/-- The `onChunk` callback applied to each fragment in order:
`aiResponse += chunk` then a guarded send of a `streaming_chunk` frame. -/
def relayChunks (wsOpen : Nat → Bool) :
    List String → Nat → List Frame → String → Nat × List Frame × String
  | [], k, fs, acc => (k, fs, acc)
  | c :: cs, k, fs, acc =>
      let acc2 := acc ++ c
      let (k2, fs2) := sendIfOpen wsOpen k fs (Frame.streamingChunk c)
      relayChunks wsOpen cs k2 fs2 acc2

/-- Step "Save user message" of the chat handler:
`storage.createMessage` with the role `"user"`. -/
def chatPersistUser (s0 : MemStorage) (cid content : Option JsonPrim) :
    Message × MemStorage :=
  s0.createMessage
    { conversationId := cid, role := "user", content := content
      model := none, tokenUsage := none }

/-- Step "Get conversation history" of the chat handler: the exact
`{role, content}` projection handed to the completion backend. -/
def chatHistory (s1 : MemStorage) (cid : Option JsonPrim) :
    List (String × Option JsonPrim) :=
  (s1.getMessagesByConversation cid).map (fun m => (m.role, m.content))

/-- The observable outcome of one invocation of the `message` handler:
how many send attempts were made, the frames that reached the wire in
order, and the final store. -/
structure TurnState where
  attempts : Nat
  frames : List Frame
  store : MemStorage
deriving DecidableEq

/-- The body of the `try` block of the `ws.on("message")` handler.
`parsed` is the result of `JSON.parse(data.toString())` (`Except.error`
carries the `SyntaxError` message).  An `Except.error` result is the
thrown exception together with the state at the throw point; `Except.ok`
is normal completion (which, for a non-chat frame, touches nothing). -/
def handleInner (wsOpen : Nat → Bool) (world : ChatWorld) (s0 : MemStorage)
    (parsed : Except String Json) : Except (TurnState × String) TurnState :=
  match parsed with
  | Except.error parseMsg => Except.error (⟨0, [], s0⟩, parseMsg)
  | Except.ok message =>
    match message.typeField with
    | Except.error m => Except.error (⟨0, [], s0⟩, m)
    | Except.ok tval =>
      if tval = some (JsonPrim.str "chat") then
        -- const { conversationId, content, model, mode } = message;
        -- (the receiver is a non-null object whenever this branch is
        -- taken, so destructuring is plain property lookup; mode is
        -- never read afterwards)
        let conversationId := jsField message "conversationId"
        let content := jsField message "content"
        let model := jsField message "model"
        -- Save user message
        let (_userMessage, s1) := chatPersistUser s0 conversationId content
        -- Get conversation history (handed to the backend call below)
        let _messageHistory := chatHistory s1 conversationId
        -- Determine which AI service to use
        match jsIncludesGpt model with
        | Except.error m => Except.error (⟨0, [], s1⟩, m)
        | Except.ok isOpenAI =>
          let (k1, fs1) := sendIfOpen wsOpen 0 [] Frame.streamingStart
          let (fragments, result) := backendRun world isOpenAI
          let (k2, fs2, _aiResponse) := relayChunks wsOpen fragments k1 fs1 ""
          match result with
          | Except.error m => Except.error (⟨k2, fs2, s1⟩, m)
          | Except.ok res =>
            -- Save AI message
            let (_aiMessage, s2) := s1.createMessage
              { conversationId := conversationId, role := "assistant"
                content := some (JsonPrim.str res.content), model := model
                tokenUsage := res.tokenUsage.map (fun n => JsonPrim.num (Int.ofNat n)) }
            let (k3, fs3) := sendIfOpen wsOpen k2 fs2
              (Frame.streamingComplete res.content res.tokenUsage)
            Except.ok ⟨k3, fs3, s2⟩
      else
        Except.ok ⟨0, [], s0⟩

/-- The whole `ws.on("message")` handler: the `try` body plus the `catch`
block, which performs one guarded send of an `error` frame carrying the
exception message and never touches the store. -/
def handleWsMessage (wsOpen : Nat → Bool) (world : ChatWorld) (s0 : MemStorage)
    (parsed : Except String Json) : TurnState :=
  match handleInner wsOpen world s0 parsed with
  | Except.ok ts => ts
  | Except.error (ts, msg) =>
      let (k, fs) := sendIfOpen wsOpen ts.attempts ts.frames (Frame.error msg)
      ⟨k, fs, ts.store⟩

/-- The payloads of the `streaming_chunk` frames of a wire trace, in
emission order. -/
def chunkPayloads (fs : List Frame) : List String :=
  fs.filterMap (fun f =>
    match f with
    | Frame.streamingChunk c => some c
    | _ => none)

/-- Terminal frames of the protocol. -/
def isTerminalFrame : Frame → Bool
  | Frame.streamingComplete _ _ => true
  | Frame.error _ => true
  | _ => false

/-- The frame ordering asserted for a turn: one `streaming_start`, then
some `streaming_chunk` frames, then exactly one terminal frame. -/
def turnFramePattern (fs : List Frame) : Prop :=
  ∃ (chunks : List String) (t : Frame), isTerminalFrame t = true ∧
    fs = Frame.streamingStart :: chunks.map Frame.streamingChunk ++ [t]

/-- The frames of `all` that pass their readiness check when attempt `k`
is made for `all[0]`, attempt `k+1` for `all[1]`, and so on. -/
def sentFrames (wsOpen : Nat → Bool) (k : Nat) (all : List Frame) : List Frame :=
  ((all.enumFrom k).filter (fun p => wsOpen p.1)).map (fun p => p.2)

/-! ### Derived composite stores used in theorem statements -/

/-- The store after a chat turn whose backend call failed: just the user
message was appended (and the conversation timestamp bumped). -/
def turnUserStore (s0 : MemStorage) (cid content : Option JsonPrim) : MemStorage :=
  (chatPersistUser s0 cid content).2

/-- The store after a successful chat turn: the user message, then the
assistant message carrying the resolved content, model and token usage. -/
def turnSuccessStore (s0 : MemStorage) (cid content model : Option JsonPrim)
    (res : CompletionResult) : MemStorage :=
  ((turnUserStore s0 cid content).createMessage
    { conversationId := cid, role := "assistant"
      content := some (JsonPrim.str res.content), model := model
      tokenUsage := res.tokenUsage.map (fun n => JsonPrim.num (Int.ofNat n)) }).2

/-! ### Concrete instances used by scenarios, counterexamples and witnesses -/

/-- A store holding exactly the empty conversation `C1`. -/
def scenarioStore : MemStorage :=
  { conversations := [{ id := "C1", title := "t", model := "gpt-5", mode := "chat",
                        createdAt := 0, updatedAt := 0 }]
    messages := []
    uploadedFiles := []
    nextId := 0
    clock := 0 }

/-- The inbound chat frame of the specification scenario:
`{type:"chat", conversationId:"C1", content:"Hi", model:"gpt-5", mode:"chat"}`. -/
def scenarioFrame : Json :=
  Json.obj [("type", JsonPrim.str "chat"), ("conversationId", JsonPrim.str "C1"),
            ("content", JsonPrim.str "Hi"), ("model", JsonPrim.str "gpt-5"),
            ("mode", JsonPrim.str "chat")]

/-- The backend behaviour of the specification scenario: the OpenAI stream
yields deltas `"Hel"` and `"lo!"` and then a final usage-bearing chunk
reporting 5 total tokens. -/
def scenarioWorld : ChatWorld :=
  { openaiOutcome := OpenAIStreamOutcome.completes
      [{ deltaContent := some "Hel", usageTotalTokens := none },
       { deltaContent := some "lo!", usageTotalTokens := none },
       { deltaContent := none, usageTotalTokens := some 5 }]
    anthropicOutcome := AnthropicStreamOutcome.completes [] }

/-- The run of the specification scenario on an open connection. -/
def scenarioRun : TurnState :=
  handleWsMessage (fun _ => true) scenarioWorld scenarioStore (Except.ok scenarioFrame)

/-- A chat frame lacking the required `model` field. -/
def noModelFrame : Json :=
  Json.obj [("type", JsonPrim.str "chat"), ("conversationId", JsonPrim.str "C1"),
            ("content", JsonPrim.str "Hi")]

/-- A store holding no conversations at all. -/
def emptyStore : MemStorage :=
  { conversations := [], messages := [], uploadedFiles := [], nextId := 0, clock := 0 }

/-- A chat frame addressing a conversation id that exists in no store used
with it. -/
def missingConvFrame : Json :=
  Json.obj [("type", JsonPrim.str "chat"),
            ("conversationId", JsonPrim.str "missing-conv"),
            ("content", JsonPrim.str "Hi"), ("model", JsonPrim.str "gpt-5"),
            ("mode", JsonPrim.str "chat")]

/-- A backend world whose OpenAI stream yields one delta `"ok"`. -/
def okWorld : ChatWorld :=
  { openaiOutcome := OpenAIStreamOutcome.completes
      [{ deltaContent := some "ok", usageTotalTokens := none }]
    anthropicOutcome := AnthropicStreamOutcome.completes [] }

/-- A backend world whose OpenAI stream rejects immediately with
`"rate limited"`. -/
def failWorld : ChatWorld :=
  { openaiOutcome := OpenAIStreamOutcome.throwsAfter [] (some "rate limited")
    anthropicOutcome := AnthropicStreamOutcome.completes [] }

/-- A concrete populated store: one conversation holding one message and
one uploaded file. -/
def populatedStore : MemStorage :=
  { conversations := [{ id := "C1", title := "t", model := "gpt-5", mode := "chat",
                        createdAt := 0, updatedAt := 0 }]
    messages := [{ id := 0, conversationId := some (JsonPrim.str "C1"), role := "user",
                   content := some (JsonPrim.str "Hi"), model := JsonPrim.null,
                   tokenUsage := JsonPrim.null, createdAt := 0 }]
    uploadedFiles := [{ id := 1, conversationId := JsonPrim.str "C1", createdAt := 0 }]
    nextId := 2
    clock := 1 }

/-! ### Elementary lemmas about the store operations -/

theorem updateConversation_messages (s : MemStorage) (id : Option JsonPrim) :
    ((s.updateConversation id).2).messages = s.messages := by
  unfold MemStorage.updateConversation
  cases s.conversations.find? (fun c => some (JsonPrim.str c.id) == id) <;> rfl

theorem updateConversation_uploadedFiles (s : MemStorage) (id : Option JsonPrim) :
    ((s.updateConversation id).2).uploadedFiles = s.uploadedFiles := by
  unfold MemStorage.updateConversation
  cases s.conversations.find? (fun c => some (JsonPrim.str c.id) == id) <;> rfl

theorem updateConversation_clock_ge (s : MemStorage) (id : Option JsonPrim) :
    s.clock ≤ ((s.updateConversation id).2).clock := by
  unfold MemStorage.updateConversation
  cases s.conversations.find? (fun c => some (JsonPrim.str c.id) == id) <;> simp

theorem createMessage_messages (s : MemStorage) (im : InsertMessage) :
    ((s.createMessage im).2).messages = s.messages ++ [(s.createMessage im).1] := by
  unfold MemStorage.createMessage
  rw [updateConversation_messages]

theorem createMessage_fst (s : MemStorage) (im : InsertMessage) :
    (s.createMessage im).1 =
      { id := s.nextId, conversationId := im.conversationId, role := im.role
        content := im.content, model := jsOrNull im.model
        tokenUsage := jsOrNull im.tokenUsage, createdAt := s.clock } := rfl

theorem createMessage_clock_gt (s : MemStorage) (im : InsertMessage) :
    s.clock < ((s.createMessage im).2).clock := by
  unfold MemStorage.createMessage
  calc s.clock < s.clock + 1 := Nat.lt_succ_self _
    _ ≤ _ := by
      exact updateConversation_clock_ge
        { s with messages := s.messages ++ [_], nextId := s.nextId + 1, clock := s.clock + 1 }
        im.conversationId

/-! ### The stable ascending sort -/

theorem mem_insertByTime {a m : Message} {l : List Message} :
    a ∈ insertByTime m l ↔ a = m ∨ a ∈ l := by
  induction l with
  | nil => simp [insertByTime]
  | cons x xs ih =>
      by_cases h : m.createdAt < x.createdAt
      · simp only [insertByTime, if_pos h, List.mem_cons]
      · simp only [insertByTime, if_neg h, List.mem_cons, ih]
        tauto

theorem mem_sortFold {a : Message} (l acc : List Message) :
    a ∈ l.foldl (fun acc m => insertByTime m acc) acc ↔ a ∈ acc ∨ a ∈ l := by
  induction l generalizing acc with
  | nil => simp
  | cons x xs ih =>
      rw [List.foldl_cons, ih, mem_insertByTime]
      simp
      tauto

theorem mem_sortByCreatedAt {a : Message} {l : List Message} :
    a ∈ sortByCreatedAt l ↔ a ∈ l := by
  unfold sortByCreatedAt
  rw [mem_sortFold]
  simp

theorem insertByTime_of_le {m : Message} {l : List Message}
    (h : ∀ x ∈ l, x.createdAt ≤ m.createdAt) : insertByTime m l = l ++ [m] := by
  induction l with
  | nil => rfl
  | cons x xs ih =>
      have hx : x.createdAt ≤ m.createdAt := h x (by simp)
      rw [insertByTime, if_neg (by omega), ih (fun y hy => h y (by simp [hy]))]
      rfl

theorem sortByCreatedAt_append (l1 l2 : List Message) :
    sortByCreatedAt (l1 ++ l2) =
      l2.foldl (fun acc m => insertByTime m acc) (sortByCreatedAt l1) := by
  unfold sortByCreatedAt
  rw [List.foldl_append]

/-- Appending two messages that are at least as late as everything already
stored sorts to a plain append. -/
theorem sortByCreatedAt_append_two {l : List Message} {u a : Message}
    (hu : ∀ x ∈ l, x.createdAt ≤ u.createdAt) (hua : u.createdAt ≤ a.createdAt)
    (ha : ∀ x ∈ l, x.createdAt ≤ a.createdAt) :
    sortByCreatedAt (l ++ [u, a]) = sortByCreatedAt l ++ [u, a] := by
  rw [sortByCreatedAt_append]
  simp only [List.foldl_cons, List.foldl_nil]
  rw [insertByTime_of_le (fun x hx => hu x (mem_sortByCreatedAt.1 hx))]
  rw [insertByTime_of_le]
  · simp
  · intro x hx
    rcases List.mem_append.1 hx with h | h
    · exact ha x (mem_sortByCreatedAt.1 h)
    · simp at h
      simp [h, hua]

/-! ### Wire-trace lemmas -/

theorem sentFrames_nil (w : Nat → Bool) (k : Nat) : sentFrames w k [] = [] := rfl

theorem sentFrames_cons (w : Nat → Bool) (k : Nat) (f : Frame) (fs : List Frame) :
    sentFrames w k (f :: fs) =
      (if w k then [f] else []) ++ sentFrames w (k + 1) fs := by
  cases h : w k <;> simp [sentFrames, List.enumFrom, h]

theorem sentFrames_append (w : Nat → Bool) (k : Nat) (xs ys : List Frame) :
    sentFrames w k (xs ++ ys) = sentFrames w k xs ++ sentFrames w (k + xs.length) ys := by
  induction xs generalizing k with
  | nil => simp [sentFrames_nil]
  | cons x xs ih =>
      simp only [List.cons_append, sentFrames_cons, ih, List.length_cons]
      rw [List.append_assoc]
      have : k + 1 + xs.length = k + (xs.length + 1) := by omega
      rw [this]

theorem sentFrames_all_open {w : Nat → Bool} (hop : ∀ k, w k = true)
    (k : Nat) (fs : List Frame) : sentFrames w k fs = fs := by
  induction fs generalizing k with
  | nil => rfl
  | cons f fs ih => rw [sentFrames_cons, hop k, ih] ; simp

theorem mem_sentFrames {w : Nat → Bool} {k : Nat} {fs : List Frame} {f : Frame}
    (h : f ∈ sentFrames w k fs) : f ∈ fs := by
  induction fs generalizing k with
  | nil => simp [sentFrames_nil] at h
  | cons x xs ih =>
      rw [sentFrames_cons] at h
      rcases List.mem_append.1 h with h1 | h1
      · cases hw : w k <;> rw [hw] at h1 <;> simp at h1
        simp [h1]
      · exact List.mem_cons_of_mem _ (ih h1)

/-- Closed form of the chunk-relaying loop: the attempt counter advances
once per fragment, and exactly the fragments whose readiness check passed
appear on the wire, in order, as `streaming_chunk` frames. -/
theorem relayChunks_eq (w : Nat → Bool) (cs : List String) :
    ∀ (k : Nat) (fs : List Frame) (acc : String), ∃ accOut,
      relayChunks w cs k fs acc =
        (k + cs.length, fs ++ sentFrames w k (cs.map Frame.streamingChunk), accOut) := by
  induction cs with
  | nil => intro k fs acc ; exact ⟨acc, by simp [relayChunks, sentFrames_nil]⟩
  | cons c cs ih =>
      intro k fs acc
      obtain ⟨accOut, hrec⟩ := ih (k + 1)
        (if w k then fs ++ [Frame.streamingChunk c] else fs) (acc ++ c)
      refine ⟨accOut, ?_⟩
      rw [relayChunks]
      simp only [sendIfOpen]
      rw [hrec]
      simp only [List.map_cons, sentFrames_cons]
      cases hw : w k <;> simp [hw, List.length_cons] <;> omega

/-- On success both provider clients resolve with the concatenation of the
fragments they handed to the callback, and never report a token usage. -/
theorem backendRun_ok (world : ChatWorld) (b : Bool) (frags : List String)
    (res : CompletionResult) (h : backendRun world b = (frags, Except.ok res)) :
    res.content = String.join frags ∧ res.tokenUsage = none := by
  cases b with
  | false =>
      cases hw : world.anthropicOutcome with
      | completes evs =>
          rw [backendRun] at h
          simp [anthropicGenerateStreamingCompletion, hw] at h
          obtain ⟨h1, h2⟩ := h
          constructor
          · rw [← h1, ← h2]
          · rw [← h2]
      | throwsAfter evs m =>
          rw [backendRun] at h
          simp [anthropicGenerateStreamingCompletion, hw] at h
  | true =>
      cases hw : world.openaiOutcome with
      | completes evs =>
          rw [backendRun] at h
          simp [openaiGenerateStreamingCompletion, hw] at h
          obtain ⟨h1, h2⟩ := h
          constructor
          · rw [← h1, ← h2]
          · rw [← h2]
      | throwsAfter evs m =>
          rw [backendRun] at h
          simp [openaiGenerateStreamingCompletion, hw] at h

/-! ### Shape of one handler invocation, case by case -/

/-- A frame whose `JSON.parse` throws: the catch block sends a single
`error` frame with the parse message; the store is untouched. -/
theorem handleWsMessage_parse_failure (wsOpen : Nat → Bool) (world : ChatWorld)
    (s0 : MemStorage) (m : String) :
    handleWsMessage wsOpen world s0 (Except.error m) =
      ⟨1, if wsOpen 0 then [Frame.error m] else [], s0⟩ := by
  simp [handleWsMessage, handleInner, sendIfOpen]

/-- A parsed frame on which reading `.type` throws (the JSON document
`null`): the catch block sends a single `error` frame; store untouched. -/
theorem handleWsMessage_typeField_failure (wsOpen : Nat → Bool) (world : ChatWorld)
    (s0 : MemStorage) (v : Json) (m : String)
    (htype : v.typeField = Except.error m) :
    handleWsMessage wsOpen world s0 (Except.ok v) =
      ⟨1, if wsOpen 0 then [Frame.error m] else [], s0⟩ := by
  simp [handleWsMessage, handleInner, htype, sendIfOpen]

/-- A parsed frame whose `type` reads fine but is not `"chat"`: the
handler does nothing at all. -/
theorem handleWsMessage_non_chat (wsOpen : Nat → Bool) (world : ChatWorld)
    (s0 : MemStorage) (v : Json) (t : Option JsonPrim)
    (htype : v.typeField = Except.ok t) (hne : t ≠ some (JsonPrim.str "chat")) :
    handleWsMessage wsOpen world s0 (Except.ok v) = ⟨0, [], s0⟩ := by
  simp [handleWsMessage, handleInner, htype, hne]

/-- A chat frame whose `model.includes("gpt")` throws (missing or
non-string `model`): the user message is already persisted, then the catch
block sends a single `error` frame. -/
theorem handleWsMessage_model_failure (wsOpen : Nat → Bool) (world : ChatWorld)
    (s0 : MemStorage) (msg : Json) (cid content model : Option JsonPrim) (m : String)
    (htype : msg.typeField = Except.ok (some (JsonPrim.str "chat")))
    (hcid : jsField msg "conversationId" = cid)
    (hcontent : jsField msg "content" = content)
    (hmodel : jsField msg "model" = model)
    (hinc : jsIncludesGpt model = Except.error m) :
    handleWsMessage wsOpen world s0 (Except.ok msg) =
      ⟨1, if wsOpen 0 then [Frame.error m] else [], turnUserStore s0 cid content⟩ := by
  simp [handleWsMessage, handleInner, htype, hcid, hcontent, hmodel, hinc,
        sendIfOpen, turnUserStore]

/-- A chat frame that resolves a backend whose call rejects: the user
message stands, the started/relayed frames are followed by a single
`error` frame from the catch block, and no assistant message is saved. -/
theorem handleWsMessage_backend_failure (wsOpen : Nat → Bool) (world : ChatWorld)
    (s0 : MemStorage) (msg : Json) (cid content model : Option JsonPrim)
    (b : Bool) (frags : List String) (em : String)
    (htype : msg.typeField = Except.ok (some (JsonPrim.str "chat")))
    (hcid : jsField msg "conversationId" = cid)
    (hcontent : jsField msg "content" = content)
    (hmodel : jsField msg "model" = model)
    (hb : jsIncludesGpt model = Except.ok b)
    (hback : backendRun world b = (frags, Except.error em)) :
    handleWsMessage wsOpen world s0 (Except.ok msg) =
      ⟨frags.length + 2,
       sentFrames wsOpen 0
         (Frame.streamingStart :: frags.map Frame.streamingChunk ++ [Frame.error em]),
       turnUserStore s0 cid content⟩ := by
  obtain ⟨accOut, hrc⟩ :=
    relayChunks_eq wsOpen frags 1 (if wsOpen 0 then [Frame.streamingStart] else []) ""
  simp only [handleWsMessage, handleInner, htype, hcid, hcontent, hmodel, hb, hback,
             sendIfOpen, turnUserStore, List.nil_append, if_true, reduceIte]
  rw [hrc]
  simp only [sentFrames_cons, sentFrames_append, List.length_map, Nat.zero_add]
  rw [TurnState.mk.injEq]
  refine ⟨by omega, ?_, rfl⟩
  simp only [List.length_cons, List.length_map, sentFrames_nil, List.append_nil,
             Nat.add_comm 1 frags.length]
  cases hT : wsOpen (frags.length + 1) <;> cases h0 : wsOpen 0 <;> simp [h0, hT]

/-- A chat frame that resolves a backend whose call succeeds: the full
frame sequence (subject to readiness checks) is `streaming_start`, the
fragments as `streaming_chunk`s in order, then one `streaming_complete`
carrying the resolved content and usage; both messages are persisted. -/
theorem handleWsMessage_success (wsOpen : Nat → Bool) (world : ChatWorld)
    (s0 : MemStorage) (msg : Json) (cid content model : Option JsonPrim)
    (b : Bool) (frags : List String) (res : CompletionResult)
    (htype : msg.typeField = Except.ok (some (JsonPrim.str "chat")))
    (hcid : jsField msg "conversationId" = cid)
    (hcontent : jsField msg "content" = content)
    (hmodel : jsField msg "model" = model)
    (hb : jsIncludesGpt model = Except.ok b)
    (hback : backendRun world b = (frags, Except.ok res)) :
    handleWsMessage wsOpen world s0 (Except.ok msg) =
      ⟨frags.length + 2,
       sentFrames wsOpen 0
         (Frame.streamingStart :: frags.map Frame.streamingChunk
           ++ [Frame.streamingComplete res.content res.tokenUsage]),
       turnSuccessStore s0 cid content model res⟩ := by
  obtain ⟨accOut, hrc⟩ :=
    relayChunks_eq wsOpen frags 1 (if wsOpen 0 then [Frame.streamingStart] else []) ""
  simp only [handleWsMessage, handleInner, htype, hcid, hcontent, hmodel, hb, hback,
             sendIfOpen, turnSuccessStore, turnUserStore, List.nil_append, reduceIte]
  rw [hrc]
  simp only [sentFrames_cons, sentFrames_append, List.length_map, Nat.zero_add]
  rw [TurnState.mk.injEq]
  refine ⟨by omega, ?_, rfl⟩
  simp only [List.length_cons, List.length_map, sentFrames_nil, List.append_nil,
             Nat.add_comm 1 frags.length]
  cases hT : wsOpen (frags.length + 1) <;> cases h0 : wsOpen 0 <;> simp [h0, hT]

/-! ### Shape of the persisted state after a turn -/

theorem turnUserStore_messages (s0 : MemStorage) (cid content : Option JsonPrim) :
    (turnUserStore s0 cid content).messages =
      s0.messages ++
        [{ id := s0.nextId, conversationId := cid, role := "user", content := content,
           model := JsonPrim.null, tokenUsage := JsonPrim.null, createdAt := s0.clock }] := by
  unfold turnUserStore chatPersistUser
  rw [createMessage_messages, createMessage_fst]
  simp [jsOrNull]

theorem turnUserStore_clock_gt (s0 : MemStorage) (cid content : Option JsonPrim) :
    s0.clock < (turnUserStore s0 cid content).clock := by
  unfold turnUserStore chatPersistUser
  exact createMessage_clock_gt s0 _

/-- The messages of a successful turn are the old ones with the user and
assistant messages of the turn appended, later than everything the turn
started from. -/
theorem turnSuccessStore_messages (s0 : MemStorage) (cid content model : Option JsonPrim)
    (res : CompletionResult) :
    ∃ u a : Message,
      (turnSuccessStore s0 cid content model res).messages = s0.messages ++ [u, a] ∧
      u.role = "user" ∧ u.content = content ∧ u.conversationId = cid ∧
      u.createdAt = s0.clock ∧
      a.role = "assistant" ∧ a.content = some (JsonPrim.str res.content) ∧
      a.conversationId = cid ∧ a.model = jsOrNull model ∧
      a.tokenUsage = jsOrNull (res.tokenUsage.map (fun n => JsonPrim.num (Int.ofNat n))) ∧
      u.createdAt < a.createdAt := by
  refine ⟨{ id := s0.nextId, conversationId := cid, role := "user", content := content,
            model := JsonPrim.null, tokenUsage := JsonPrim.null, createdAt := s0.clock },
          ((turnUserStore s0 cid content).createMessage
             { conversationId := cid, role := "assistant"
               content := some (JsonPrim.str res.content), model := model
               tokenUsage := res.tokenUsage.map (fun n => JsonPrim.num (Int.ofNat n)) }).1,
          ?_, rfl, rfl, rfl, rfl, ?_, ?_, ?_, ?_, ?_, ?_⟩
  · unfold turnSuccessStore
    rw [createMessage_messages, turnUserStore_messages, List.append_assoc]
    rfl
  · rw [createMessage_fst]
  · rw [createMessage_fst]
  · rw [createMessage_fst]
  · rw [createMessage_fst]
  · rw [createMessage_fst]
  · rw [createMessage_fst]
    exact turnUserStore_clock_gt s0 cid content

/-- After a successful turn on a store whose messages all predate its
clock, `getMessagesByConversation` returns the old transcript followed by
the user message and then the assistant message of the turn. -/
theorem turnSuccessStore_listMessages (s0 : MemStorage)
    (cid content model : Option JsonPrim) (res : CompletionResult)
    (hWF : ∀ m ∈ s0.messages, m.createdAt < s0.clock) :
    ∃ u a : Message,
      (turnSuccessStore s0 cid content model res).getMessagesByConversation cid =
        s0.getMessagesByConversation cid ++ [u, a] ∧
      u.role = "user" ∧ u.content = content ∧
      a.role = "assistant" ∧ a.content = some (JsonPrim.str res.content) ∧
      a.model = jsOrNull model ∧
      a.tokenUsage = jsOrNull (res.tokenUsage.map (fun n => JsonPrim.num (Int.ofNat n))) := by
  obtain ⟨u, a, hmsgs, hur, huc, hucid, hut, har, hac, hacid, ham, hatu, hlt⟩ :=
    turnSuccessStore_messages s0 cid content model res
  refine ⟨u, a, ?_, hur, huc, har, hac, ham, hatu⟩
  unfold MemStorage.getMessagesByConversation
  rw [hmsgs, List.filter_append]
  have hfu : List.filter (fun m => m.conversationId == cid) [u, a] = [u, a] := by
    simp [List.filter, hucid, hacid]
  rw [hfu]
  apply sortByCreatedAt_append_two
  · intro x hx
    have hx2 : x ∈ s0.messages := List.mem_of_mem_filter hx
    have := hWF x hx2
    omega
  · omega
  · intro x hx
    have hx2 : x ∈ s0.messages := List.mem_of_mem_filter hx
    have := hWF x hx2
    omega

/-! ### C9 -/

/-- C9: for every conversation id, `deleteConversation` removes every
message whose owning conversation id equals it and every uploaded file
owned by it, so a subsequent `getMessagesByConversation` on the deleted id
returns the empty sequence and no orphaned message of that conversation
remains. -/
theorem deleteConversation_cascades (s : MemStorage) (id : String) :
    ((s.deleteConversation id).2).getMessagesByConversation (some (JsonPrim.str id)) = [] ∧
    ((s.deleteConversation id).2).getUploadedFilesFor id = [] ∧
    ∀ m ∈ ((s.deleteConversation id).2).messages,
      m.conversationId ≠ some (JsonPrim.str id) := by
  have hmsg : ∀ m ∈ ((s.deleteConversation id).2).messages,
      m.conversationId ≠ some (JsonPrim.str id) := by
    intro m hm heq
    unfold MemStorage.deleteConversation at hm
    simp only [List.mem_filter] at hm
    obtain ⟨hm1, hm2⟩ := hm
    have hin : m ∈ s.getMessagesByConversation (some (JsonPrim.str id)) := by
      rw [MemStorage.getMessagesByConversation, mem_sortByCreatedAt, List.mem_filter]
      exact ⟨hm1, by simp [heq]⟩
    have hcont :
        ((s.getMessagesByConversation (some (JsonPrim.str id))).map
          (fun m => m.id)).contains m.id = true :=
      List.elem_eq_true_of_mem (List.mem_map.2 ⟨m, hin, rfl⟩)
    rw [hcont] at hm2
    simp at hm2
  have hfile : ∀ f ∈ ((s.deleteConversation id).2).uploadedFiles,
      f.conversationId ≠ JsonPrim.str id := by
    intro f hf heq
    unfold MemStorage.deleteConversation at hf
    simp only [List.mem_filter] at hf
    obtain ⟨hf1, hf2⟩ := hf
    have hin : f ∈ s.getUploadedFilesFor id := by
      rw [MemStorage.getUploadedFilesFor, List.mem_filter]
      exact ⟨hf1, by simp [heq]⟩
    have hcont : ((s.getUploadedFilesFor id).map (fun f => f.id)).contains f.id = true :=
      List.elem_eq_true_of_mem (List.mem_map.2 ⟨f, hin, rfl⟩)
    rw [hcont] at hf2
    simp at hf2
  refine ⟨?_, ?_, hmsg⟩
  · rw [MemStorage.getMessagesByConversation]
    have hnil : ((s.deleteConversation id).2).messages.filter
        (fun m => m.conversationId == some (JsonPrim.str id)) = [] := by
      rw [List.filter_eq_nil_iff]
      intro m hm
      simp [hmsg m hm]
    rw [hnil]
    rfl
  · rw [MemStorage.getUploadedFilesFor]
    rw [List.filter_eq_nil_iff]
    intro f hf
    simp [hfile f hf]

/-- Witness for C9 at a concrete populated store: one conversation with a
message and a file, both gone after the delete. -/
theorem deleteConversation_cascades_witness :
    ((populatedStore.deleteConversation "C1").2).getMessagesByConversation
        (some (JsonPrim.str "C1")) = [] ∧
    ((populatedStore.deleteConversation "C1").2).getUploadedFilesFor "C1" = [] :=
  ⟨(deleteConversation_cascades populatedStore "C1").1,
   (deleteConversation_cascades populatedStore "C1").2.1⟩

/-! ### C1 -/

theorem chunkPayloads_closed (frags : List String) (t : Frame)
    (ht : ∀ c, t ≠ Frame.streamingChunk c) :
    chunkPayloads (Frame.streamingStart :: frags.map Frame.streamingChunk ++ [t]) =
      frags := by
  have h1 : List.filterMap
      ((fun f => match f with
        | Frame.streamingChunk c => some c
        | _ => none) ∘ Frame.streamingChunk) frags = frags := by
    rw [show ((fun f => match f with
        | Frame.streamingChunk c => some c
        | _ => none) ∘ Frame.streamingChunk) = some from rfl]
    exact List.filterMap_some frags
  cases t with
  | streamingChunk c => exact absurd rfl (ht c)
  | streamingStart =>
      simp only [chunkPayloads, List.filterMap_append, List.filterMap_map,
                 List.filterMap_cons]
      rw [h1]
      simp
  | streamingComplete c u =>
      simp only [chunkPayloads, List.filterMap_append, List.filterMap_map,
                 List.filterMap_cons]
      rw [h1]
      simp
  | error m =>
      simp only [chunkPayloads, List.filterMap_append, List.filterMap_map,
                 List.filterMap_cons]
      rw [h1]
      simp

/-- C1: on a connection that stays open, a successful chat turn ends with
a `streaming_complete` frame whose `content` equals the concatenation of
the `streaming_chunk` payloads in emission order, and the assistant
message subsequently retrievable via `getMessagesByConversation` (its last
entry) carries that same text as its `content`. -/
theorem chat_success_chunks_concat (wsOpen : Nat → Bool) (world : ChatWorld)
    (s0 : MemStorage) (msg : Json) (cid content model : Option JsonPrim)
    (b : Bool) (frags : List String) (res : CompletionResult)
    (hopen : ∀ k, wsOpen k = true)
    (hWF : ∀ m ∈ s0.messages, m.createdAt < s0.clock)
    (htype : msg.typeField = Except.ok (some (JsonPrim.str "chat")))
    (hcid : jsField msg "conversationId" = cid)
    (hcontent : jsField msg "content" = content)
    (hmodel : jsField msg "model" = model)
    (hb : jsIncludesGpt model = Except.ok b)
    (hback : backendRun world b = (frags, Except.ok res)) :
    (handleWsMessage wsOpen world s0 (Except.ok msg)).frames.getLast? =
      some (Frame.streamingComplete
        (String.join (chunkPayloads (handleWsMessage wsOpen world s0 (Except.ok msg)).frames))
        res.tokenUsage) ∧
    ∃ a : Message,
      ((handleWsMessage wsOpen world s0 (Except.ok msg)).store.getMessagesByConversation
          cid).getLast? = some a ∧
      a.role = "assistant" ∧
      a.content = some (JsonPrim.str
        (String.join (chunkPayloads (handleWsMessage wsOpen world s0 (Except.ok msg)).frames))) := by
  obtain ⟨hrc, _⟩ := backendRun_ok world b frags res hback
  rw [handleWsMessage_success wsOpen world s0 msg cid content model b frags res
        htype hcid hcontent hmodel hb hback]
  simp only [sentFrames_all_open hopen]
  rw [chunkPayloads_closed frags _ (fun c h => by cases h)]
  constructor
  · rw [List.getLast?_concat, hrc]
  · obtain ⟨u, a, hlist, hur, huc, har, hac, ham, hatu⟩ :=
      turnSuccessStore_listMessages s0 cid content model res hWF
    refine ⟨a, ?_, har, ?_⟩
    · rw [hlist, List.append_cons, List.getLast?_concat]
    · rw [hac, hrc]

/-- Witness for C1: the specification scenario, where the turn concatenates
`"Hel"` and `"lo!"` to `"Hello!"`. -/
theorem chat_success_chunks_concat_witness :
    scenarioRun.frames.getLast? =
      some (Frame.streamingComplete (String.join (chunkPayloads scenarioRun.frames)) none) ∧
    ∃ a : Message,
      (scenarioRun.store.getMessagesByConversation
          (some (JsonPrim.str "C1"))).getLast? = some a ∧
      a.role = "assistant" ∧
      a.content = some (JsonPrim.str (String.join (chunkPayloads scenarioRun.frames))) :=
  chat_success_chunks_concat (fun _ => true) scenarioWorld scenarioStore scenarioFrame
    (some (JsonPrim.str "C1")) (some (JsonPrim.str "Hi")) (some (JsonPrim.str "gpt-5"))
    true ["Hel", "lo!"] { content := "Hello!", tokenUsage := none }
    (fun _ => rfl) (by intro m hm; simp [scenarioStore] at hm)
    rfl rfl rfl rfl rfl rfl

/-! ### C2 -/

/-- C2: for a chat turn whose backend call fails, the user message was
persisted before the backend was invoked — the history projection handed
to the backend already contains it — and it remains persisted and
retrievable afterwards (no rollback). -/
theorem user_message_persisted_first (wsOpen : Nat → Bool) (world : ChatWorld)
    (s0 : MemStorage) (msg : Json) (cid content model : Option JsonPrim)
    (b : Bool) (frags : List String) (em : String)
    (htype : msg.typeField = Except.ok (some (JsonPrim.str "chat")))
    (hcid : jsField msg "conversationId" = cid)
    (hcontent : jsField msg "content" = content)
    (hmodel : jsField msg "model" = model)
    (hb : jsIncludesGpt model = Except.ok b)
    (hback : backendRun world b = (frags, Except.error em)) :
    ("user", content) ∈ chatHistory (turnUserStore s0 cid content) cid ∧
    ∃ u : Message,
      u ∈ (handleWsMessage wsOpen world s0 (Except.ok msg)).store.getMessagesByConversation
            cid ∧
      u.role = "user" ∧ u.content = content := by
  have hu : ({ id := s0.nextId, conversationId := cid, role := "user", content := content,
               model := JsonPrim.null, tokenUsage := JsonPrim.null,
               createdAt := s0.clock } : Message)
      ∈ (turnUserStore s0 cid content).getMessagesByConversation cid := by
    rw [MemStorage.getMessagesByConversation, mem_sortByCreatedAt, List.mem_filter]
    constructor
    · rw [turnUserStore_messages]
      simp
    · simp
  constructor
  · rw [chatHistory]
    exact List.mem_map.2 ⟨_, hu, rfl⟩
  · refine ⟨{ id := s0.nextId, conversationId := cid, role := "user", content := content,
              model := JsonPrim.null, tokenUsage := JsonPrim.null,
              createdAt := s0.clock }, ?_, rfl, rfl⟩
    rw [handleWsMessage_backend_failure wsOpen world s0 msg cid content model b frags em
          htype hcid hcontent hmodel hb hback]
    exact hu

/-- Witness for C2: the scenario store with a backend that is rate
limited. -/
theorem user_message_persisted_first_witness :
    ("user", some (JsonPrim.str "Hi")) ∈
      chatHistory (turnUserStore scenarioStore (some (JsonPrim.str "C1"))
        (some (JsonPrim.str "Hi"))) (some (JsonPrim.str "C1")) ∧
    ∃ u : Message,
      u ∈ (handleWsMessage (fun _ => true) failWorld scenarioStore
            (Except.ok scenarioFrame)).store.getMessagesByConversation
              (some (JsonPrim.str "C1")) ∧
      u.role = "user" ∧ u.content = some (JsonPrim.str "Hi") :=
  user_message_persisted_first (fun _ => true) failWorld scenarioStore scenarioFrame
    (some (JsonPrim.str "C1")) (some (JsonPrim.str "Hi")) (some (JsonPrim.str "gpt-5"))
    true [] "OpenAI API error: rate limited" rfl rfl rfl rfl rfl rfl

/-! ### C3 -/

/-- The `try` body on a chat frame whose `model.includes` throws. -/
theorem handleInner_model_failure (wsOpen : Nat → Bool) (world : ChatWorld)
    (s0 : MemStorage) (msg : Json) (cid content model : Option JsonPrim) (m : String)
    (htype : msg.typeField = Except.ok (some (JsonPrim.str "chat")))
    (hcid : jsField msg "conversationId" = cid)
    (hcontent : jsField msg "content" = content)
    (hmodel : jsField msg "model" = model)
    (hinc : jsIncludesGpt model = Except.error m) :
    handleInner wsOpen world s0 (Except.ok msg) =
      Except.error (⟨0, [], turnUserStore s0 cid content⟩, m) := by
  simp [handleInner, htype, hcid, hcontent, hmodel, hinc, turnUserStore]

/-- The `try` body on a chat frame whose backend call rejects. -/
theorem handleInner_backend_failure (wsOpen : Nat → Bool) (world : ChatWorld)
    (s0 : MemStorage) (msg : Json) (cid content model : Option JsonPrim)
    (b : Bool) (frags : List String) (em : String)
    (htype : msg.typeField = Except.ok (some (JsonPrim.str "chat")))
    (hcid : jsField msg "conversationId" = cid)
    (hcontent : jsField msg "content" = content)
    (hmodel : jsField msg "model" = model)
    (hb : jsIncludesGpt model = Except.ok b)
    (hback : backendRun world b = (frags, Except.error em)) :
    handleInner wsOpen world s0 (Except.ok msg) =
      Except.error (⟨frags.length + 1,
        sentFrames wsOpen 0 (Frame.streamingStart :: frags.map Frame.streamingChunk),
        turnUserStore s0 cid content⟩, em) := by
  obtain ⟨accOut, hrc⟩ :=
    relayChunks_eq wsOpen frags 1 (if wsOpen 0 then [Frame.streamingStart] else []) ""
  simp only [handleInner, htype, hcid, hcontent, hmodel, hb, hback,
             sendIfOpen, turnUserStore, List.nil_append, reduceIte]
  rw [hrc]
  rw [Except.error.injEq, Prod.mk.injEq, TurnState.mk.injEq]
  refine ⟨⟨by omega, ?_, rfl⟩, rfl⟩
  rw [sentFrames_cons]

/-- The `try` body on a chat frame whose backend call succeeds. -/
theorem handleInner_success (wsOpen : Nat → Bool) (world : ChatWorld)
    (s0 : MemStorage) (msg : Json) (cid content model : Option JsonPrim)
    (b : Bool) (frags : List String) (res : CompletionResult)
    (htype : msg.typeField = Except.ok (some (JsonPrim.str "chat")))
    (hcid : jsField msg "conversationId" = cid)
    (hcontent : jsField msg "content" = content)
    (hmodel : jsField msg "model" = model)
    (hb : jsIncludesGpt model = Except.ok b)
    (hback : backendRun world b = (frags, Except.ok res)) :
    handleInner wsOpen world s0 (Except.ok msg) =
      Except.ok ⟨frags.length + 2,
        sentFrames wsOpen 0
          (Frame.streamingStart :: frags.map Frame.streamingChunk
            ++ [Frame.streamingComplete res.content res.tokenUsage]),
        turnSuccessStore s0 cid content model res⟩ := by
  obtain ⟨accOut, hrc⟩ :=
    relayChunks_eq wsOpen frags 1 (if wsOpen 0 then [Frame.streamingStart] else []) ""
  simp only [handleInner, htype, hcid, hcontent, hmodel, hb, hback,
             sendIfOpen, turnSuccessStore, turnUserStore, List.nil_append, reduceIte]
  rw [hrc]
  simp only [sentFrames_cons, sentFrames_append, List.length_map, Nat.zero_add]
  rw [Except.ok.injEq, TurnState.mk.injEq]
  refine ⟨by omega, ?_, rfl⟩
  simp only [List.length_cons, List.length_map, sentFrames_nil, List.append_nil,
             Nat.add_comm 1 frags.length]
  cases hT : wsOpen (frags.length + 1) <;> cases h0 : wsOpen 0 <;> simp [h0, hT]

/-- If the `try` body of the handler throws, the store at the throw point
holds the original messages plus possibly a freshly persisted user
message, and no `streaming_complete` frame was sent. -/
theorem handleInner_error_inv (wsOpen : Nat → Bool) (world : ChatWorld)
    (s0 : MemStorage) (parsed : Except String Json) (ts : TurnState) (m : String)
    (h : handleInner wsOpen world s0 parsed = Except.error (ts, m)) :
    (∃ extra, ts.store.messages = s0.messages ++ extra ∧ ∀ x ∈ extra, x.role = "user") ∧
    ∀ c u, Frame.streamingComplete c u ∉ ts.frames := by
  cases parsed with
  | error pm =>
      rw [handleInner] at h
      rw [Except.error.injEq, Prod.mk.injEq] at h
      obtain ⟨hts, _⟩ := h
      rw [← hts]
      exact ⟨⟨[], by simp, by simp⟩, by simp⟩
  | ok v =>
      cases htf : v.typeField with
      | error tm =>
          have heq : handleInner wsOpen world s0 (Except.ok v) =
              Except.error (⟨0, [], s0⟩, tm) := by
            simp [handleInner, htf]
          rw [heq, Except.error.injEq, Prod.mk.injEq] at h
          obtain ⟨hts, _⟩ := h
          rw [← hts]
          exact ⟨⟨[], by simp, by simp⟩, by simp⟩
      | ok tval =>
          by_cases hch : tval = some (JsonPrim.str "chat")
          · rw [hch] at htf
            cases hj : jsIncludesGpt (jsField v "model") with
            | error jm =>
                rw [handleInner_model_failure wsOpen world s0 v _ _ _ jm
                      htf rfl rfl rfl hj,
                    Except.error.injEq, Prod.mk.injEq] at h
                obtain ⟨hts, _⟩ := h
                rw [← hts]
                refine ⟨⟨[{ id := s0.nextId, conversationId := jsField v "conversationId",
                            role := "user", content := jsField v "content",
                            model := JsonPrim.null, tokenUsage := JsonPrim.null,
                            createdAt := s0.clock }], ?_, ?_⟩, by simp⟩
                · exact turnUserStore_messages s0 _ _
                · intro x hx
                  simp at hx
                  rw [hx]
            | ok b =>
                obtain ⟨frags, result, hbr⟩ :
                    ∃ fr r, backendRun world b = (fr, r) := ⟨_, _, rfl⟩
                cases result with
                | ok res =>
                    rw [handleInner_success wsOpen world s0 v _ _ _ b frags res
                          htf rfl rfl rfl hj hbr] at h
                    exact Except.noConfusion h
                | error em =>
                    rw [handleInner_backend_failure wsOpen world s0 v _ _ _ b frags em
                          htf rfl rfl rfl hj hbr,
                        Except.error.injEq, Prod.mk.injEq] at h
                    obtain ⟨hts, _⟩ := h
                    rw [← hts]
                    constructor
                    · refine ⟨[{ id := s0.nextId,
                                 conversationId := jsField v "conversationId",
                                 role := "user", content := jsField v "content",
                                 model := JsonPrim.null, tokenUsage := JsonPrim.null,
                                 createdAt := s0.clock }], ?_, ?_⟩
                      · exact turnUserStore_messages s0 _ _
                      · intro x hx
                        simp at hx
                        rw [hx]
                    · intro c u hc
                      have hmem := mem_sentFrames hc
                      rcases List.mem_cons.1 hmem with h1 | h1
                      · exact Frame.noConfusion h1
                      · obtain ⟨c2, _, hc2⟩ := List.mem_map.1 h1
                        exact Frame.noConfusion hc2
          · have heq : handleInner wsOpen world s0 (Except.ok v) =
                Except.ok ⟨0, [], s0⟩ := by
              simp [handleInner, htf, hch]
            rw [heq] at h
            exact Except.noConfusion h

/-- C3: for every chat turn whose `try` body throws (the backend call or
any earlier step), no assistant message is created — the stored assistant
messages are exactly those of the initial store — and, on an open
connection, the turn ends with an `error` frame and no
`streaming_complete` frame is ever sent. -/
theorem no_assistant_message_on_failure (wsOpen : Nat → Bool) (world : ChatWorld)
    (s0 : MemStorage) (parsed : Except String Json) (ts : TurnState) (m : String)
    (hopen : ∀ k, wsOpen k = true)
    (hfail : handleInner wsOpen world s0 parsed = Except.error (ts, m)) :
    (handleWsMessage wsOpen world s0 parsed).store.messages.filter
        (fun x => x.role == "assistant")
      = s0.messages.filter (fun x => x.role == "assistant") ∧
    (handleWsMessage wsOpen world s0 parsed).frames.getLast? = some (Frame.error m) ∧
    ∀ c u, Frame.streamingComplete c u ∉ (handleWsMessage wsOpen world s0 parsed).frames := by
  obtain ⟨⟨extra, hmsgs, hextra⟩, hnocomp⟩ :=
    handleInner_error_inv wsOpen world s0 parsed ts m hfail
  have hrun : handleWsMessage wsOpen world s0 parsed =
      ⟨ts.attempts + 1, ts.frames ++ [Frame.error m], ts.store⟩ := by
    rw [handleWsMessage, hfail]
    simp [sendIfOpen, hopen ts.attempts]
  rw [hrun]
  refine ⟨?_, ?_, ?_⟩
  · simp only [hmsgs, List.filter_append]
    have : extra.filter (fun x => x.role == "assistant") = [] := by
      rw [List.filter_eq_nil_iff]
      intro x hx
      simp [hextra x hx]
    rw [this, List.append_nil]
  · rw [List.getLast?_concat]
  · intro c u hc
    rcases List.mem_append.1 hc with h1 | h1
    · exact hnocomp c u h1
    · simp at h1

/-- Witness for C3: the scenario store with a rate-limited backend; the
only frames are `streaming_start` and the `error`, and the store holds no
assistant message. -/
theorem no_assistant_message_on_failure_witness :
    (handleWsMessage (fun _ => true) failWorld scenarioStore
        (Except.ok scenarioFrame)).store.messages.filter
        (fun x => x.role == "assistant")
      = scenarioStore.messages.filter (fun x => x.role == "assistant") ∧
    (handleWsMessage (fun _ => true) failWorld scenarioStore
        (Except.ok scenarioFrame)).frames.getLast?
      = some (Frame.error "OpenAI API error: rate limited") ∧
    ∀ c u, Frame.streamingComplete c u ∉
      (handleWsMessage (fun _ => true) failWorld scenarioStore
        (Except.ok scenarioFrame)).frames :=
  no_assistant_message_on_failure (fun _ => true) failWorld scenarioStore
    (Except.ok scenarioFrame)
    ⟨1, [Frame.streamingStart],
     turnUserStore scenarioStore (some (JsonPrim.str "C1")) (some (JsonPrim.str "Hi"))⟩
    "OpenAI API error: rate limited" (fun _ => rfl) rfl

/-! ### C8 -/

/-- C8: whatever the transport does during the turn — including closing at
any point, which makes every later readiness check fail and silently drops
those frames — backend fragment consumption continues, the final store is
exactly the store of a fully-open run, and the assistant message is
persisted with the fully accumulated text. -/
theorem closed_transport_still_persists (wsOpen : Nat → Bool) (world : ChatWorld)
    (s0 : MemStorage) (msg : Json) (cid content model : Option JsonPrim)
    (b : Bool) (frags : List String) (res : CompletionResult)
    (htype : msg.typeField = Except.ok (some (JsonPrim.str "chat")))
    (hcid : jsField msg "conversationId" = cid)
    (hcontent : jsField msg "content" = content)
    (hmodel : jsField msg "model" = model)
    (hb : jsIncludesGpt model = Except.ok b)
    (hback : backendRun world b = (frags, Except.ok res)) :
    (handleWsMessage wsOpen world s0 (Except.ok msg)).frames =
      sentFrames wsOpen 0 (Frame.streamingStart :: frags.map Frame.streamingChunk
        ++ [Frame.streamingComplete res.content res.tokenUsage]) ∧
    (handleWsMessage wsOpen world s0 (Except.ok msg)).store =
      (handleWsMessage (fun _ => true) world s0 (Except.ok msg)).store ∧
    ∃ a ∈ (handleWsMessage wsOpen world s0 (Except.ok msg)).store.messages,
      a.role = "assistant" ∧ a.content = some (JsonPrim.str (String.join frags)) := by
  obtain ⟨hrc, _⟩ := backendRun_ok world b frags res hback
  rw [handleWsMessage_success wsOpen world s0 msg cid content model b frags res
        htype hcid hcontent hmodel hb hback,
      handleWsMessage_success (fun _ => true) world s0 msg cid content model b frags res
        htype hcid hcontent hmodel hb hback]
  refine ⟨rfl, rfl, ?_⟩
  obtain ⟨u, a, hmsgs, _, _, _, _, har, hac, _, _, _, _⟩ :=
    turnSuccessStore_messages s0 cid content model res
  refine ⟨a, ?_, har, by rw [hac, hrc]⟩
  rw [hmsgs]
  simp

/-- Witness for C8: the scenario run on a transport that closes right
after `streaming_start`; only that frame reaches the wire, yet the
assistant message `"Hello!"` is persisted. -/
theorem closed_transport_still_persists_witness :
    (handleWsMessage (fun k => k == 0) scenarioWorld scenarioStore
        (Except.ok scenarioFrame)).frames =
      sentFrames (fun k => k == 0) 0
        (Frame.streamingStart :: ["Hel", "lo!"].map Frame.streamingChunk
          ++ [Frame.streamingComplete "Hello!" none]) ∧
    (handleWsMessage (fun k => k == 0) scenarioWorld scenarioStore
        (Except.ok scenarioFrame)).store =
      (handleWsMessage (fun _ => true) scenarioWorld scenarioStore
        (Except.ok scenarioFrame)).store ∧
    ∃ a ∈ (handleWsMessage (fun k => k == 0) scenarioWorld scenarioStore
        (Except.ok scenarioFrame)).store.messages,
      a.role = "assistant" ∧
      a.content = some (JsonPrim.str (String.join ["Hel", "lo!"])) :=
  closed_transport_still_persists (fun k => k == 0) scenarioWorld scenarioStore
    scenarioFrame (some (JsonPrim.str "C1")) (some (JsonPrim.str "Hi"))
    (some (JsonPrim.str "gpt-5")) true ["Hel", "lo!"]
    { content := "Hello!", tokenUsage := none } rfl rfl rfl rfl rfl rfl

/-! ### C4 -/

/-- C4 (amended): once backend resolution has succeeded (`model` is a
string), a chat turn on a connection that stays open emits exactly one
`streaming_start`, the provider fragments as `streaming_chunk` frames in
emission order, and then exactly one terminal frame — `streaming_complete`
on success, `error` on failure; no frame follows the terminal one. -/
theorem frame_order_after_resolution (wsOpen : Nat → Bool) (world : ChatWorld)
    (s0 : MemStorage) (msg : Json) (cid content model : Option JsonPrim)
    (b : Bool) (frags : List String) (result : Except String CompletionResult)
    (hopen : ∀ k, wsOpen k = true)
    (htype : msg.typeField = Except.ok (some (JsonPrim.str "chat")))
    (hcid : jsField msg "conversationId" = cid)
    (hcontent : jsField msg "content" = content)
    (hmodel : jsField msg "model" = model)
    (hb : jsIncludesGpt model = Except.ok b)
    (hback : backendRun world b = (frags, result)) :
    (handleWsMessage wsOpen world s0 (Except.ok msg)).frames =
      Frame.streamingStart :: frags.map Frame.streamingChunk ++
        [match result with
         | Except.ok res => Frame.streamingComplete res.content res.tokenUsage
         | Except.error em => Frame.error em] ∧
    turnFramePattern (handleWsMessage wsOpen world s0 (Except.ok msg)).frames := by
  cases result with
  | ok res =>
      rw [handleWsMessage_success wsOpen world s0 msg cid content model b frags res
            htype hcid hcontent hmodel hb hback]
      rw [sentFrames_all_open hopen]
      exact ⟨rfl, frags, Frame.streamingComplete res.content res.tokenUsage, rfl, rfl⟩
  | error em =>
      rw [handleWsMessage_backend_failure wsOpen world s0 msg cid content model b frags em
            htype hcid hcontent hmodel hb hback]
      rw [sentFrames_all_open hopen]
      exact ⟨rfl, frags, Frame.error em, rfl, rfl⟩

/-- Witness for C4 (amended): the specification scenario. -/
theorem frame_order_after_resolution_witness :
    scenarioRun.frames =
      Frame.streamingStart :: ["Hel", "lo!"].map Frame.streamingChunk ++
        [Frame.streamingComplete "Hello!" none] ∧
    turnFramePattern scenarioRun.frames := by
  have h := frame_order_after_resolution (fun _ => true) scenarioWorld scenarioStore
    scenarioFrame (some (JsonPrim.str "C1")) (some (JsonPrim.str "Hi"))
    (some (JsonPrim.str "gpt-5")) true ["Hel", "lo!"]
    (Except.ok { content := "Hello!", tokenUsage := none })
    (fun _ => rfl) rfl rfl rfl rfl rfl rfl
  exact h

/-- Counterexample for C4 as stated: a chat turn whose frame lacks the
`model` field fails before `streaming_start`; its only frame is the
`error`, so the turn does not follow the
start-chunks-terminal pattern. -/
theorem frame_order_counterexample :
    (handleWsMessage (fun _ => true) okWorld scenarioStore
        (Except.ok noModelFrame)).frames
      = [Frame.error "Cannot read properties of undefined (reading includes)"] ∧
    ¬ turnFramePattern (handleWsMessage (fun _ => true) okWorld scenarioStore
        (Except.ok noModelFrame)).frames := by
  have hfr : (handleWsMessage (fun _ => true) okWorld scenarioStore
      (Except.ok noModelFrame)).frames
      = [Frame.error "Cannot read properties of undefined (reading includes)"] := rfl
  refine ⟨hfr, ?_⟩
  rintro ⟨chunks, t, ht, heq⟩
  rw [hfr] at heq
  cases chunks <;> simp at heq

/-! ### C5 -/

/-- `updateConversation` on an id matching no stored conversation is a
complete no-op. -/
theorem updateConversation_missing (s : MemStorage) (id : Option JsonPrim)
    (h : ∀ c ∈ s.conversations, some (JsonPrim.str c.id) ≠ id) :
    (s.updateConversation id).2 = s := by
  unfold MemStorage.updateConversation
  have hf : s.conversations.find? (fun c => some (JsonPrim.str c.id) == id) = none := by
    rw [List.find?_eq_none]
    intro c hc
    simp [h c hc]
  rw [hf]

/-- `createMessage` towards a conversation id matching no stored
conversation leaves the conversation list untouched. -/
theorem createMessage_conversations_missing (s : MemStorage) (im : InsertMessage)
    (h : ∀ c ∈ s.conversations, some (JsonPrim.str c.id) ≠ im.conversationId) :
    ((s.createMessage im).2).conversations = s.conversations := by
  have h2 : (s.createMessage im).2 =
      (({ s with
            messages := s.messages ++ [(s.createMessage im).1]
            nextId := s.nextId + 1
            clock := s.clock + 1 } : MemStorage).updateConversation
        im.conversationId).2 := rfl
  rw [h2, updateConversation_missing _ _ ?hm]
  case hm => exact fun c hc => h c hc

/-- Neither persistence step of a turn towards a nonexistent conversation
touches the conversation list. -/
theorem turnSuccessStore_conversations_missing (s0 : MemStorage)
    (cid content model : Option JsonPrim) (res : CompletionResult)
    (h : ∀ c ∈ s0.conversations, some (JsonPrim.str c.id) ≠ cid) :
    (turnSuccessStore s0 cid content model res).conversations = s0.conversations := by
  have hconvs1 : (turnUserStore s0 cid content).conversations = s0.conversations := by
    unfold turnUserStore chatPersistUser
    exact createMessage_conversations_missing s0 _ h
  unfold turnSuccessStore
  rw [createMessage_conversations_missing _ _ ?_, hconvs1]
  intro c hc
  rw [hconvs1] at hc
  exact h c hc

/-- C5 (amended): a chat request whose `conversationId` refers to no
existing conversation does not fail.  `createMessage` performs no
existence check and the conversation-timestamp bump silently no-ops, so
(on an open connection, with a successful backend) the turn emits the
normal success frames, leaves the conversation list untouched, and
persists the user and assistant messages as orphans under the unknown
id. -/
theorem missing_conversation_turn_succeeds (wsOpen : Nat → Bool) (world : ChatWorld)
    (s0 : MemStorage) (msg : Json) (cidStr : String) (content model : Option JsonPrim)
    (b : Bool) (frags : List String) (res : CompletionResult)
    (hopen : ∀ k, wsOpen k = true)
    (hWF : ∀ m ∈ s0.messages, m.createdAt < s0.clock)
    (hnoconv : ∀ c ∈ s0.conversations, c.id ≠ cidStr)
    (htype : msg.typeField = Except.ok (some (JsonPrim.str "chat")))
    (hcid : jsField msg "conversationId" = some (JsonPrim.str cidStr))
    (hcontent : jsField msg "content" = content)
    (hmodel : jsField msg "model" = model)
    (hb : jsIncludesGpt model = Except.ok b)
    (hback : backendRun world b = (frags, Except.ok res)) :
    (handleWsMessage wsOpen world s0 (Except.ok msg)).frames =
      Frame.streamingStart :: frags.map Frame.streamingChunk ++
        [Frame.streamingComplete res.content res.tokenUsage] ∧
    (handleWsMessage wsOpen world s0 (Except.ok msg)).store.conversations =
      s0.conversations ∧
    ∃ u a : Message,
      (handleWsMessage wsOpen world s0 (Except.ok msg)).store.getMessagesByConversation
          (some (JsonPrim.str cidStr)) =
        s0.getMessagesByConversation (some (JsonPrim.str cidStr)) ++ [u, a] ∧
      u.role = "user" ∧ u.content = content ∧
      a.role = "assistant" ∧ a.content = some (JsonPrim.str res.content) := by
  rw [handleWsMessage_success wsOpen world s0 msg (some (JsonPrim.str cidStr)) content
        model b frags res htype hcid hcontent hmodel hb hback]
  have hmiss : ∀ c ∈ s0.conversations,
      some (JsonPrim.str c.id) ≠ some (JsonPrim.str cidStr) := by
    intro c hc he
    exact hnoconv c hc (by injection he with he2; injection he2)
  refine ⟨sentFrames_all_open hopen 0 _, ?_, ?_⟩
  · exact turnSuccessStore_conversations_missing s0 _ content model res hmiss
  · obtain ⟨u, a, hlist, hur, huc, har, hac, _, _⟩ :=
      turnSuccessStore_listMessages s0 (some (JsonPrim.str cidStr)) content model res hWF
    exact ⟨u, a, hlist, hur, huc, har, hac⟩

/-- Witness for C5 (amended): concrete request towards `"missing-conv"`
on the empty store. -/
theorem missing_conversation_turn_succeeds_witness :
    (handleWsMessage (fun _ => true) okWorld emptyStore
        (Except.ok missingConvFrame)).frames =
      Frame.streamingStart :: ["ok"].map Frame.streamingChunk ++
        [Frame.streamingComplete "ok" none] ∧
    (handleWsMessage (fun _ => true) okWorld emptyStore
        (Except.ok missingConvFrame)).store.conversations = emptyStore.conversations ∧
    ∃ u a : Message,
      (handleWsMessage (fun _ => true) okWorld emptyStore
          (Except.ok missingConvFrame)).store.getMessagesByConversation
          (some (JsonPrim.str "missing-conv")) =
        emptyStore.getMessagesByConversation (some (JsonPrim.str "missing-conv"))
          ++ [u, a] ∧
      u.role = "user" ∧ u.content = some (JsonPrim.str "Hi") ∧
      a.role = "assistant" ∧ a.content = some (JsonPrim.str "ok") :=
  missing_conversation_turn_succeeds (fun _ => true) okWorld emptyStore missingConvFrame
    "missing-conv" (some (JsonPrim.str "Hi")) (some (JsonPrim.str "gpt-5"))
    true ["ok"] { content := "ok", tokenUsage := none }
    (fun _ => rfl) (by intro m hm; simp [emptyStore] at hm)
    (by intro c hc; simp [emptyStore] at hc)
    rfl rfl rfl rfl rfl rfl

/-- Counterexample for C5 as stated: the same concrete request towards a
nonexistent conversation ends in `streaming_complete`, not `error`, and
persists two messages under the unknown id. -/
theorem missing_conversation_counterexample :
    (handleWsMessage (fun _ => true) okWorld emptyStore
        (Except.ok missingConvFrame)).frames
      = [Frame.streamingStart, Frame.streamingChunk "ok",
         Frame.streamingComplete "ok" none] ∧
    ((handleWsMessage (fun _ => true) okWorld emptyStore
        (Except.ok missingConvFrame)).store.getMessagesByConversation
        (some (JsonPrim.str "missing-conv"))).length = 2 := by
  constructor
  · rfl
  · rfl

/-! ### C6 -/

/-- Counterexample for C6 as stated: in the specification scenario the
provider stream does report 5 total tokens, but the streaming service
functions return only `{content}`, so no
`streaming_complete {content:"Hello!", tokenUsage:5}` is ever sent and no
stored message carries a token usage of 5. -/
theorem scenario_counterexample :
    Frame.streamingComplete "Hello!" (some 5) ∉ scenarioRun.frames ∧
    (scenarioRun.store.messages.map (fun m => m.tokenUsage)).contains
      (JsonPrim.num 5) = false := by
  constructor
  · decide
  · decide

/-- C6 (amended): the scenario produces, in order, `streaming_start`,
`streaming_chunk "Hel"`, `streaming_chunk "lo!"` and a
`streaming_complete` whose `content` is `"Hello!"` but which carries no
`tokenUsage`; the persisted state is the user message `"Hi"` followed by
the assistant message `"Hello!"` with model `"gpt-5"` and a `null`
`tokenUsage` — the provider usage report is discarded by the streaming
completion functions. -/
theorem scenario_run_exact :
    scenarioRun.frames =
      [Frame.streamingStart, Frame.streamingChunk "Hel", Frame.streamingChunk "lo!",
       Frame.streamingComplete "Hello!" none] ∧
    (scenarioRun.store.getMessagesByConversation (some (JsonPrim.str "C1"))).map
        (fun m => (m.role, m.content, m.model, m.tokenUsage)) =
      [("user", some (JsonPrim.str "Hi"), JsonPrim.null, JsonPrim.null),
       ("assistant", some (JsonPrim.str "Hello!"), JsonPrim.str "gpt-5",
        JsonPrim.null)] := by
  constructor
  · rfl
  · rfl

/-! ### C7 -/

/-- C7 (amended): a frame whose `JSON.parse` throws is answered with a
single `error` frame and mutates nothing; but a parsed chat frame missing
the required `model` field has its user message persisted *before* the
failure — the `error` frame is sent and the mutation stands. -/
theorem malformed_frame_handling (wsOpen : Nat → Bool) (world : ChatWorld)
    (s0 : MemStorage) (hopen : wsOpen 0 = true) :
    (∀ m, handleWsMessage wsOpen world s0 (Except.error m) =
      ⟨1, [Frame.error m], s0⟩) ∧
    (∀ (msg : Json) (cid content : Option JsonPrim),
      msg.typeField = Except.ok (some (JsonPrim.str "chat")) →
      jsField msg "conversationId" = cid →
      jsField msg "content" = content →
      jsField msg "model" = none →
      handleWsMessage wsOpen world s0 (Except.ok msg) =
        ⟨1, [Frame.error "Cannot read properties of undefined (reading includes)"],
         turnUserStore s0 cid content⟩) := by
  constructor
  · intro m
    rw [handleWsMessage_parse_failure wsOpen world s0 m, hopen]
    simp
  · intro msg cid content htype hcid hcontent hmodel
    rw [handleWsMessage_model_failure wsOpen world s0 msg cid content none
          "Cannot read properties of undefined (reading includes)"
          htype hcid hcontent hmodel rfl, hopen]
    simp

/-- Witness for C7 (amended): a concrete unparseable frame and the
concrete chat frame without `model`. -/
theorem malformed_frame_handling_witness :
    handleWsMessage (fun _ => true) okWorld scenarioStore
        (Except.error "Unexpected token x in JSON at position 0") =
      ⟨1, [Frame.error "Unexpected token x in JSON at position 0"], scenarioStore⟩ ∧
    handleWsMessage (fun _ => true) okWorld scenarioStore (Except.ok noModelFrame) =
      ⟨1, [Frame.error "Cannot read properties of undefined (reading includes)"],
       turnUserStore scenarioStore (some (JsonPrim.str "C1"))
         (some (JsonPrim.str "Hi"))⟩ :=
  ⟨(malformed_frame_handling (fun _ => true) okWorld scenarioStore rfl).1
     "Unexpected token x in JSON at position 0",
   (malformed_frame_handling (fun _ => true) okWorld scenarioStore rfl).2
     noModelFrame (some (JsonPrim.str "C1")) (some (JsonPrim.str "Hi"))
     rfl rfl rfl rfl⟩

/-- Counterexample for C7 as stated: the chat frame missing its `model`
field is answered with an `error` frame, yet a message *was* persisted for
the request — the handler mutates state before validating fields. -/
theorem malformed_frame_counterexample :
    (handleWsMessage (fun _ => true) okWorld scenarioStore
        (Except.ok noModelFrame)).frames
      = [Frame.error "Cannot read properties of undefined (reading includes)"] ∧
    (handleWsMessage (fun _ => true) okWorld scenarioStore
        (Except.ok noModelFrame)).store.messages.length = 1 ∧
    scenarioStore.messages.length = 0 := by
  refine ⟨rfl, rfl, rfl⟩

/-! ### C10 -/

/-- C10 (amended): every frame that parses to a JSON value other than the
document `null` and whose `type` field is not `"chat"` is silently
ignored — no outbound frame, no store mutation.  (The document `null` is
the exception: reading `.type` of `null` throws, so it is answered with an
`error` frame; see the counterexample.) -/
theorem non_chat_frame_silently_ignored (wsOpen : Nat → Bool) (world : ChatWorld)
    (s0 : MemStorage) (v : Json) (t : Option JsonPrim)
    (htype : v.typeField = Except.ok t) (hne : t ≠ some (JsonPrim.str "chat")) :
    (handleWsMessage wsOpen world s0 (Except.ok v)).frames = [] ∧
    (handleWsMessage wsOpen world s0 (Except.ok v)).store = s0 := by
  rw [handleWsMessage_non_chat wsOpen world s0 v t htype hne]
  exact ⟨rfl, rfl⟩

/-- Witness for C10 (amended): a concrete `{type:"ping"}` frame is
ignored. -/
theorem non_chat_frame_silently_ignored_witness :
    (handleWsMessage (fun _ => true) okWorld scenarioStore
        (Except.ok (Json.obj [("type", JsonPrim.str "ping")]))).frames = [] ∧
    (handleWsMessage (fun _ => true) okWorld scenarioStore
        (Except.ok (Json.obj [("type", JsonPrim.str "ping")]))).store = scenarioStore :=
  non_chat_frame_silently_ignored (fun _ => true) okWorld scenarioStore
    (Json.obj [("type", JsonPrim.str "ping")]) (some (JsonPrim.str "ping"))
    rfl (by decide)

/-- Counterexample for C10 as stated: the inbound payload `null` parses as
JSON and has no `type` field, yet the handler answers it with an `error`
frame (reading `.type` of `null` throws a `TypeError`) instead of
ignoring it. -/
theorem null_frame_counterexample :
    (handleWsMessage (fun _ => true) okWorld scenarioStore
        (Except.ok (Json.prim JsonPrim.null))).frames
      = [Frame.error "Cannot read properties of null (reading type)"] ∧
    (handleWsMessage (fun _ => true) okWorld scenarioStore
        (Except.ok (Json.prim JsonPrim.null))).frames ≠ [] := by
  refine ⟨rfl, by decide⟩
